import Mathlib

/-!
Verification of the dask-gateway TLS proxy control plane
(src/dask_gateway/proxy/core.py) against its specification.

The Python module is shallowly embedded: every request-building and
token-resolution function is translated to a pure Lean function; the
routing engine (the external configurable-tls-proxy process, whose code
is not part of this slice) is modelled from the spec as a state machine
over a route table.  HTTP bodies are kept as structured JSON values (the
json.dumps/json.loads boundary is the identity on well-formed data).
-/

set_option maxRecDepth 10000

/-- A JSON value, restricted to the shapes this protocol exchanges:
strings, flat objects, and null (absent bodies are `Option.none`). -/
inductive Json where
  | str : String → Json
  | obj : List (String × Json) → Json
  | null : Json
deriving Repr

/-- An HTTP request as built by tornado's HTTPRequest in _api_request:
url, method, headers and an optional (JSON) body. -/
structure HTTPRequest where
  url : String
  method : String
  headers : List (String × String)
  body : Option Json
deriving Repr

/-- An HTTP response: status code and optional JSON body. -/
structure HTTPResponse where
  code : Nat
  body : Option Json
deriving Repr

/-- The error tornado's AsyncHTTPClient.fetch raises for a non-2xx
response (HTTPError carries the status code and the response, hence its
body). -/
structure HTTPErr where
  code : Nat
  body : Option Json
deriving Repr

/-- tornado AsyncHTTPClient.fetch semantics: a response with a status
code outside 200..299 is raised as an HTTPError (raise_error defaults to
True); a 2xx response is returned to the caller. -/
def fetchResult (resp : HTTPResponse) : Except HTTPErr HTTPResponse :=
  if 200 ≤ resp.code ∧ resp.code < 300 then Except.ok resp
  else Except.error { code := resp.code, body := resp.body }

/-- The Proxy traitlets configuration: log_level, public_url, api_url and
auth_token (each a Unicode/CaselessStrEnum trait in the source). -/
structure Proxy where
  log_level : String
  public_url : String
  api_url : String
  auth_token : String
deriving Repr

/-- Proxy._api_request, request-construction part: it builds an
HTTPRequest for the given url and method, with the fixed header
Authorization: token <auth_token>; a dict body is serialized with
json.dumps (kept structured here). -/
def Proxy.api_request_req (p : Proxy) (url : String) (method : String)
    (body : Option Json) : HTTPRequest :=
  { url := url
    method := method
    headers := [("Authorization", "token " ++ p.auth_token)]
    body := body }

/-- Proxy.add_route, request part: PUT to '%s/api/routes/%s' %
(api_url, route) — the route is interpolated verbatim — with body
the dict with key target. -/
def Proxy.add_route_req (p : Proxy) (route : String) (target : String) : HTTPRequest :=
  p.api_request_req (p.api_url ++ "/api/routes/" ++ route) "PUT"
    (some (Json.obj [("target", Json.str target)]))

/-- Proxy.add_route, response part: the awaited fetch result with the
response value discarded; a fetch error propagates to the caller. -/
def add_route_result (resp : HTTPResponse) : Except HTTPErr Unit :=
  (fetchResult resp).map fun _ => ()

/-- Proxy.delete_route, request part: DELETE to '%s/api/routes/%s' %
(api_url, route), no body. -/
def Proxy.delete_route_req (p : Proxy) (route : String) : HTTPRequest :=
  p.api_request_req (p.api_url ++ "/api/routes/" ++ route) "DELETE" none

/-- Proxy.delete_route, response part: the awaited fetch result with the
response value discarded; a fetch error propagates to the caller. -/
def delete_route_result (resp : HTTPResponse) : Except HTTPErr Unit :=
  (fetchResult resp).map fun _ => ()

/-- Proxy.get_all_routes, request part: GET to '%s/api/routes/' %
api_url, no body. -/
def Proxy.get_all_routes_req (p : Proxy) : HTTPRequest :=
  p.api_request_req (p.api_url ++ "/api/routes/") "GET" none

/-- The route table the engine holds: an association of route key to
target, in insertion order. -/
def RouteTable := List (String × String)
deriving instance Repr for RouteTable

/-- Decode a flat JSON object whose values are all strings into route
pairs (what json.loads yields for the engine's GET response). -/
def decodePairs : List (String × Json) → Option (List (String × String))
  | [] => some []
  | (k, Json.str v) :: rest => (decodePairs rest).map fun r => (k, v) :: r
  | _ => none

/-- Proxy.get_all_routes, decoding part: json.loads of the response body
as a dict of route to target; a non-object or non-string-valued body has
no dict reading (none). -/
def decodeRoutes : Option Json → Option RouteTable
  | some (Json.obj l) => decodePairs l
  | _ => none

/-- Proxy.get_all_routes, response part: fetch, then json.loads the body. -/
def get_all_routes_result (resp : HTTPResponse) : Except HTTPErr (Option RouteTable) :=
  (fetchResult resp).map fun r => decodeRoutes r.body

/-- The lowercase hexadecimal digit for a value below 16, as used by
Python's hex rendering of a UUID ('0'..'9' then 'a'..'f'). -/
def hexDigit (n : Nat) : Char :=
  Char.ofNat (if n < 10 then 48 + n else 87 + n)

/-- The value of a lowercase hexadecimal digit (inverse of hexDigit on
hex digits). -/
def hexVal (c : Char) : Nat :=
  if 97 ≤ c.toNat then c.toNat - 87 else c.toNat - 48

/-- Is the character a lowercase hexadecimal digit? -/
def isLowerHexDigit (c : Char) : Bool :=
  (48 ≤ c.toNat && c.toNat ≤ 57) || (97 ≤ c.toNat && c.toNat ≤ 102)

/-- The k-digit big-endian hexadecimal rendering of n (exact for
n < 16^k); toHexDigitsList n 32 is Python's '%032x' % n for a 128-bit n,
which is what uuid.UUID.hex produces. -/
def toHexDigitsList : Nat → Nat → List Char
  | _, 0 => []
  | n, k + 1 => toHexDigitsList (n / 16) k ++ [hexDigit (n % 16)]

/-- Read back a big-endian list of hexadecimal digits. -/
def fromHexList (l : List Char) : Nat :=
  l.foldl (fun a c => a * 16 + hexVal c) 0

/-- The 32-character hex string of a 128-bit integer (uuid.UUID.hex). -/
def toHex32 (n : Nat) : String :=
  String.mk (toHexDigitsList n 32)

/-- uuid.uuid4 integer value: 16 random bytes (here the 128-bit value r)
with the variant bits forced to 10 (clear bits 62-63 of the high half,
i.e. bits 62-63 of the clock_seq area at offset 48, then set bit 63 of
that area) and the version field forced to 4 (clear bits 76-79, set bit
78), exactly as UUID.__init__ does for version=4. -/
def uuidInt (r : Nat) : Nat :=
  let m := 2 ^ 128 - 1
  let n := r % 2 ^ 128
  let n := (n &&& (m ^^^ (0xc000 <<< 48))) ||| (0x8000 <<< 48)
  let n := (n &&& (m ^^^ (0xf000 <<< 64))) ||| (4 <<< 76)
  n

/-- uuid.uuid4().hex for the 128-bit random draw r: the 32-character
lowercase hex rendering of the version-4 UUID integer. -/
def uuid4_hex (r : Nat) : String :=
  toHex32 (uuidInt r)

/-- Proxy._auth_token_default: read CONFIG_TLS_PROXY_TOKEN from the
environment with default ''; if the result is falsy (empty), use a
freshly generated uuid4 hex token instead.  envTok is
os.environ.get('CONFIG_TLS_PROXY_TOKEN') and fresh the process's random
draw for uuid.uuid4. -/
def auth_token_default (envTok : Option String) (fresh : Nat) : String :=
  let token := envTok.getD ""
  if token = "" then uuid4_hex fresh else token

/-- A standard stream disposition for subprocess.Popen: PIPE or None
(inherit the supervisor's own stream). -/
inductive StdStream where
  | pipe
  | inherit
deriving Repr, DecidableEq

/-- The subprocess.Popen invocation made by Proxy.start: argument
vector, child environment, stream dispositions and session flag. -/
structure PopenCall where
  args : List String
  env : List (String × String)
  stdin : StdStream
  stdout : StdStream
  stderr : StdStream
  start_new_session : Bool
deriving Repr

/-- The engine executable path _PROXY_EXE; the directory-of-__file__
prefix is a filesystem detail elided from the model. -/
def PROXY_EXE : String := "configurable-tls-proxy"

/-- Everything up to and including the first '://' is dropped; none when
no '://' occurs. -/
def dropToSlashSlash : List Char → Option (List Char)
  | [] => none
  | ':' :: '/' :: '/' :: rest => some rest
  | _ :: rest => dropToSlashSlash rest

/-- urllib.parse.urlparse(url).netloc for URLs of the form
scheme://host..., as Proxy.start applies it to public_url and api_url:
the text after '://' up to the next '/', '?' or '#'. -/
def netloc (url : String) : String :=
  match dropToSlashSlash url.data with
  | none => ""
  | some rest =>
    String.mk (rest.takeWhile fun c => !(c == '/') && !(c == '?') && !(c == '#'))

/-- Environment lookup: the most recent binding of the key wins (the
association list models a Python dict observed through get). -/
def envGet (e : List (String × String)) (k : String) : Option String :=
  match e.find? fun p => p.1 == k with
  | some p => some p.2
  | none => none

/-- os.environ.copy() followed by env[k] = v: a fresh mapping in which k
now binds v and every other key keeps its binding. -/
def envSet (e : List (String × String)) (k v : String) : List (String × String) :=
  (k, v) :: e

/-- Proxy.start: parse the netloc out of public_url and api_url, build
the fixed argument vector, copy the environment with
CONFIG_TLS_PROXY_TOKEN set to the auth token, and describe the Popen
call (stdin=PIPE, stdout=None, stderr=None, start_new_session=True).
The function returns as soon as the call is described: no wait or
readiness poll of the engine's API occurs. -/
def Proxy.start (p : Proxy) (osEnv : List (String × String)) : PopenCall :=
  let address := netloc p.public_url
  let api_address := netloc p.api_url
  { args := [PROXY_EXE,
             "-address", address,
             "-api-address", api_address,
             "-log-level", p.log_level,
             "-is-child-process"]
    env := envSet osEnv "CONFIG_TLS_PROXY_TOKEN" p.auth_token
    stdin := StdStream.pipe
    stdout := StdStream.inherit
    stderr := StdStream.inherit
    start_new_session := true }

/-- A Python-level error relevant to this module. -/
inductive PyError where
  | attributeError
deriving Repr, DecidableEq

/-- The supervisor's runtime state: proxy_process is the attribute that
Proxy.start assigns; none models the attribute never having been set. -/
structure ProxyState where
  proxy_process : Option PopenCall

/-- Proxy.stop: self.proxy_process.terminate().  Reading the attribute
before start ever assigned it raises AttributeError; otherwise the owned
process handle receives terminate. -/
def Proxy.stop (st : ProxyState) : Except PyError PopenCall :=
  match st.proxy_process with
  | none => Except.error PyError.attributeError
  | some pr => Except.ok pr

/-- Drop a prefix from a character list: some remainder when the prefix
matches, none otherwise. -/
def dropPrefixCh : List Char → List Char → Option (List Char)
  | [], s => some s
  | _ :: _, [] => none
  | p :: ps, c :: cs => if p = c then dropPrefixCh ps cs else none

/-- Modelled from the spec: upsert into the engine's route table — a PUT
on an existing key overwrites it; a new key is appended. -/
def tableUpsert (t : RouteTable) (k v : String) : RouteTable :=
  (List.filter (fun p => !(p.1 == k)) t) ++ [(k, v)]

/-- Modelled from the spec: removal from the engine's route table — a
DELETE on an absent key leaves the table unchanged. -/
def tableDelete (t : RouteTable) (k : String) : RouteTable :=
  List.filter (fun p => !(p.1 == k)) t

/-- Is the character a hexadecimal digit, either case (as accepted
inside a %XX escape)? -/
def isHexDigitCh (c : Char) : Bool :=
  (48 ≤ c.toNat && c.toNat ≤ 57) || (97 ≤ c.toNat && c.toNat ≤ 102) ||
  (65 ≤ c.toNat && c.toNat ≤ 70)

/-- The value of a hexadecimal digit of either case. -/
def hexValD (c : Char) : Nat :=
  if 97 ≤ c.toNat then c.toNat - 87
  else if 65 ≤ c.toNat then c.toNat - 55
  else c.toNat - 48

/-- Percent-decode a character stream: a %XX escape with two hex digits
becomes the character of that code point; a stray percent stays
literal; every other character stands for itself. -/
def pctDecodeChars : List Char → List Char
  | [] => []
  | [c] => [c]
  | [c, c1] => [c, c1]
  | c :: c1 :: c2 :: rest =>
    if c == '%' && isHexDigitCh c1 && isHexDigitCh c2 then
      Char.ofNat (16 * hexValD c1 + hexValD c2) :: pctDecodeChars rest
    else c :: pctDecodeChars (c1 :: c2 :: rest)

/-- Modelled from the spec: the engine reads the route out of
PUT and DELETE requests by percent-decoding the raw path segment — the
spec fixes the wire format of those endpoints as a percent-encoded path
segment, so the table key is the decoding of what arrived. -/
def pctDecodeSegment (s : String) : String :=
  String.mk (pctDecodeChars s.data)

/-- Modelled from the spec: the engine's management HTTP API (the
configurable-tls-proxy process is not part of this source slice).  It
authenticates the fixed Authorization header, and serves
PUT /api/routes/{route} (upsert, 2xx), DELETE /api/routes/{route} (2xx
on success, including when absent) and GET /api/routes/ (the whole table
as one JSON object, no pagination).  The apiUrl prefix of the request
URL locates the path, and the route is the percent-decoding of the raw
path segment that follows it. -/
def engineHandle (apiUrl tok : String) (t : RouteTable) (req : HTTPRequest) :
    RouteTable × HTTPResponse :=
  if ("Authorization", "token " ++ tok) ∈ req.headers then
    match dropPrefixCh (apiUrl ++ "/api/routes/").data req.url.data with
    | none => (t, { code := 404, body := none })
    | some rest =>
      if req.method = "GET" then
        if rest = [] then
          (t, { code := 200,
                body := some (Json.obj (t.map fun p => (p.1, Json.str p.2))) })
        else (t, { code := 404, body := none })
      else if req.method = "PUT" then
        match req.body with
        | some (Json.obj [("target", Json.str tgt)]) =>
          (tableUpsert t (pctDecodeSegment (String.mk rest)) tgt,
           { code := 200, body := none })
        | _ => (t, { code := 400, body := none })
      else if req.method = "DELETE" then
        (tableDelete t (pctDecodeSegment (String.mk rest)), { code := 200, body := none })
      else (t, { code := 405, body := none })
  else (t, { code := 403, body := none })

/-- One add_route call against the modelled engine: build the request,
let the engine handle it, run the client's response handling. -/
def runAddRoute (p : Proxy) (t : RouteTable) (route target : String) :
    RouteTable × Except HTTPErr Unit :=
  let (t2, resp) := engineHandle p.api_url p.auth_token t (p.add_route_req route target)
  (t2, add_route_result resp)

/-- One delete_route call against the modelled engine. -/
def runDeleteRoute (p : Proxy) (t : RouteTable) (route : String) :
    RouteTable × Except HTTPErr Unit :=
  let (t2, resp) := engineHandle p.api_url p.auth_token t (p.delete_route_req route)
  (t2, delete_route_result resp)

/-- One get_all_routes call against the modelled engine (reads never
change the table). -/
def runGetAllRoutes (p : Proxy) (t : RouteTable) : Except HTTPErr (Option RouteTable) :=
  get_all_routes_result (engineHandle p.api_url p.auth_token t p.get_all_routes_req).2

/-- An RFC 3986 unreserved character (kept verbatim by percent-encoding
of a path segment). -/
def isUnreserved (c : Char) : Bool :=
  (65 ≤ c.toNat && c.toNat ≤ 90) || (97 ≤ c.toNat && c.toNat ≤ 122) ||
  (48 ≤ c.toNat && c.toNat ≤ 57) ||
  c == '-' || c == '.' || c == '_' || c == '~'

/-- Percent-encode a character stream: an unreserved character stands
for itself, every other character becomes a %XX escape of its code point
(ASCII scope suffices for the claims). -/
def pctEncodeChars : List Char → List Char
  | [] => []
  | c :: cs =>
    (if isUnreserved c then [c]
     else ['%', hexDigit (c.toNat / 16 % 16), hexDigit (c.toNat % 16)]) ++
    pctEncodeChars cs

/-- Modelled from the spec: percent-encoding of a route identifier as a
URL path segment.  This is the encoding the spec requires before
transmission; it exists here to be compared with what the source
actually sends. -/
def pctEncodeSegment (s : String) : String :=
  String.mk (pctEncodeChars s.data)

/-- A concrete Proxy configuration used to evaluate the model at
specific inputs (the default log level and public URL, a local API URL,
a fixed token). -/
def P0 : Proxy :=
  { log_level := "warn"
    public_url := "tls://0.0.0.0:8080"
    api_url := "http://localhost:8000"
    auth_token := "secret-token" }

theorem dropPrefixCh_append (p s : List Char) : dropPrefixCh p (p ++ s) = some s := by
  induction p with
  | nil => rfl
  | cons c cs ih => simp [dropPrefixCh, ih]

theorem dropPrefixCh_self (l : List Char) : dropPrefixCh l l = some [] := by
  have h := dropPrefixCh_append l []
  rwa [List.append_nil] at h

theorem dropPrefixCh_strings (base r : String) :
    dropPrefixCh base.data (base ++ r).data = some r.data := by
  rw [String.data_append, dropPrefixCh_append]

theorem string_mk_data (s : String) : String.mk s.data = s := rfl

theorem decodePairs_map (t : List (String × String)) :
    decodePairs (t.map fun kv => (kv.1, Json.str kv.2)) = some t := by
  induction t with
  | nil => rfl
  | cons kv rest ih => simp [decodePairs, ih]

theorem envGet_envSet (e : List (String × String)) (k v : String) :
    envGet (envSet e k v) k = some v := by
  simp [envGet, envSet, List.find?]

theorem toHexDigitsList_length (k n : Nat) : (toHexDigitsList n k).length = k := by
  induction k generalizing n with
  | zero => rfl
  | succ k ih => simp [toHexDigitsList, ih]

theorem hexVal_hexDigit : ∀ d : Fin 16, hexVal (hexDigit d.val) = d.val := by decide

theorem isLowerHexDigit_hexDigit : ∀ d : Fin 16, isLowerHexDigit (hexDigit d.val) = true := by
  decide

theorem toHexDigitsList_all_hex (k n : Nat) :
    (toHexDigitsList n k).all isLowerHexDigit = true := by
  induction k generalizing n with
  | zero => rfl
  | succ k ih =>
    simp only [toHexDigitsList, List.all_append, List.all_cons, List.all_nil,
      Bool.and_true, ih, Bool.true_and]
    exact isLowerHexDigit_hexDigit ⟨n % 16, Nat.mod_lt _ (by decide)⟩

theorem foldl_toHexDigitsList (k : Nat) :
    ∀ n a, n < 16 ^ k →
      List.foldl (fun a c => a * 16 + hexVal c) a (toHexDigitsList n k) = a * 16 ^ k + n := by
  induction k with
  | zero =>
    intro n a h
    simp only [toHexDigitsList, List.foldl_nil, pow_zero]
    omega
  | succ k ih =>
    intro n a h
    have hdiv : n / 16 < 16 ^ k := by
      rw [Nat.div_lt_iff_lt_mul (by decide : 0 < 16)]
      calc n < 16 ^ (k + 1) := h
      _ = 16 ^ k * 16 := by rw [pow_succ]
    simp only [toHexDigitsList, List.foldl_append, List.foldl_cons, List.foldl_nil]
    rw [ih (n / 16) a hdiv]
    have hv : hexVal (hexDigit (n % 16)) = n % 16 :=
      hexVal_hexDigit ⟨n % 16, Nat.mod_lt _ (by decide)⟩
    rw [hv, pow_succ]
    calc (a * 16 ^ k + n / 16) * 16 + n % 16
        = a * (16 ^ k * 16) + (16 * (n / 16) + n % 16) := by ring
      _ = a * (16 ^ k * 16) + n := by rw [Nat.div_add_mod]

theorem fromHexList_toHexDigitsList {k n : Nat} (h : n < 16 ^ k) :
    fromHexList (toHexDigitsList n k) = n := by
  have := foldl_toHexDigitsList k n 0 h
  simpa [fromHexList] using this

theorem toHex32_inj {n m : Nat} (hn : n < 2 ^ 128) (hm : m < 2 ^ 128)
    (h : toHex32 n = toHex32 m) : n = m := by
  have h16 : (16 : Nat) ^ 32 = 2 ^ 128 := by norm_num
  have hdata : toHexDigitsList n 32 = toHexDigitsList m 32 := by
    have := congrArg String.data h
    simpa [toHex32] using this
  have := congrArg fromHexList hdata
  rwa [fromHexList_toHexDigitsList (h16 ▸ hn), fromHexList_toHexDigitsList (h16 ▸ hm)] at this

theorem uuidInt_lt (r : Nat) : uuidInt r < 2 ^ 128 := by
  simp only [uuidInt]
  apply Nat.or_lt_two_pow
  · exact Nat.lt_of_le_of_lt Nat.and_le_left
      (Nat.or_lt_two_pow
        (Nat.lt_of_le_of_lt Nat.and_le_left (Nat.mod_lt _ (by positivity)))
        (by decide))
  · decide

theorem uuid4_hex_length (r : Nat) : (uuid4_hex r).length = 32 := by
  simp [uuid4_hex, toHex32, String.length, toHexDigitsList_length]

theorem uuid4_hex_all_hex (r : Nat) : (uuid4_hex r).data.all isLowerHexDigit = true :=
  toHexDigitsList_all_hex 32 (uuidInt r)

theorem uuid4_hex_inj {r1 r2 : Nat} (h : uuidInt r1 ≠ uuidInt r2) :
    uuid4_hex r1 ≠ uuid4_hex r2 := fun heq =>
  h (toHex32_inj (uuidInt_lt r1) (uuidInt_lt r2) heq)

theorem uuid4_hex_ne_empty (r : Nat) : uuid4_hex r ≠ "" := by
  intro h
  have := congrArg String.length h
  rw [uuid4_hex_length] at this
  simp [String.length] at this

theorem dropPrefixCh_cancel (a s t : List Char) :
    dropPrefixCh (a ++ s) (a ++ t) = dropPrefixCh s t := by
  induction a with
  | nil => rfl
  | cons c cs ih => simp [dropPrefixCh, ih]

theorem runAddRoute_eq (p : Proxy) (t : RouteTable) (r tgt : String) :
    runAddRoute p t r tgt = (tableUpsert t (pctDecodeSegment r) tgt, Except.ok ()) := by
  simp [runAddRoute, Proxy.add_route_req, Proxy.api_request_req, engineHandle,
    dropPrefixCh_cancel, dropPrefixCh, string_mk_data,
    add_route_result, fetchResult, Except.map]

theorem runDeleteRoute_eq (p : Proxy) (t : RouteTable) (r : String) :
    runDeleteRoute p t r = (tableDelete t (pctDecodeSegment r), Except.ok ()) := by
  simp [runDeleteRoute, Proxy.delete_route_req, Proxy.api_request_req, engineHandle,
    dropPrefixCh_cancel, dropPrefixCh, string_mk_data,
    delete_route_result, fetchResult, Except.map]

theorem runGetAllRoutes_eq (p : Proxy) (t : RouteTable) :
    runGetAllRoutes p t = Except.ok (some t) := by
  simp [runGetAllRoutes, Proxy.get_all_routes_req, Proxy.api_request_req, engineHandle,
    dropPrefixCh_cancel, dropPrefixCh, get_all_routes_result, fetchResult,
    decodeRoutes, decodePairs_map, Except.map]

theorem pctEncodeChars_unreserved (l : List Char) (h : l.all isUnreserved = true) :
    pctEncodeChars l = l := by
  induction l with
  | nil => rfl
  | cons c cs ih =>
    rw [List.all_cons, Bool.and_eq_true] at h
    simp [pctEncodeChars, h.1, ih h.2]

theorem pctEncodeSegment_unreserved (r : String) (h : r.data.all isUnreserved = true) :
    pctEncodeSegment r = r := by
  rw [pctEncodeSegment, pctEncodeChars_unreserved _ h]

theorem pctDecodeChars_no_escape (l : List Char)
    (h : l.all (fun c => !(c == '%')) = true) : pctDecodeChars l = l := by
  induction l using pctDecodeChars.induct with
  | case1 => rfl
  | case2 c => rfl
  | case3 c c1 => rfl
  | case4 c c1 c2 rest hcond ih =>
    rw [List.all_cons, Bool.and_eq_true] at h
    rw [Bool.and_eq_true, Bool.and_eq_true] at hcond
    rw [hcond.1.1] at h
    exact absurd h.1 (by decide)
  | case5 c c1 c2 rest hcond ih =>
    rw [List.all_cons, Bool.and_eq_true] at h
    simp only [pctDecodeChars, hcond, if_false, Bool.false_eq_true]
    rw [ih h.2]

theorem pctDecodeSegment_no_escape (r : String)
    (h : r.data.all (fun c => !(c == '%')) = true) : pctDecodeSegment r = r := by
  rw [pctDecodeSegment, pctDecodeChars_no_escape _ h]

theorem unreserved_no_escape (l : List Char) (h : l.all isUnreserved = true) :
    l.all (fun c => !(c == '%')) = true := by
  induction l with
  | nil => rfl
  | cons c cs ih =>
    rw [List.all_cons, Bool.and_eq_true] at h ⊢
    refine ⟨?_, ih h.2⟩
    by_cases hc : c = '%'
    · rw [hc] at h
      exact absurd h.1 (by decide)
    · simp [hc]

/-- Claim C1 counterexample: the source does not percent-encode the
route.  add_route on the route with a space transmits the URL with the
raw space in it, while the percent-encoding of that route as a path
segment is the distinct string with %20. -/
theorem add_route_not_percent_encoded :
    (P0.add_route_req "a b" "10.0.0.1:9000").url =
      "http://localhost:8000/api/routes/a b" ∧
    P0.api_url ++ "/api/routes/" ++ pctEncodeSegment "a b" =
      "http://localhost:8000/api/routes/a%20b" := by
  constructor
  · rfl
  · rfl

/-- Claim C1 (amended): add_route and delete_route interpolate the
route verbatim into the URL path, with no percent-encoding; for a route
made only of unreserved characters the verbatim form coincides with the
percent-encoded path segment, and the round trip holds: after
addRoute(r, t), getAllRoutes() returns the literal key r mapped to t. -/
theorem add_route_verbatim_unreserved_roundtrip (p : Proxy) (r tgt : String)
    (h : r.data.all isUnreserved = true) :
    (p.add_route_req r tgt).url = p.api_url ++ "/api/routes/" ++ pctEncodeSegment r ∧
    (p.delete_route_req r).url = p.api_url ++ "/api/routes/" ++ pctEncodeSegment r ∧
    runGetAllRoutes p (runAddRoute p [] r tgt).1 = Except.ok (some [(r, tgt)]) := by
  rw [pctEncodeSegment_unreserved r h]
  refine ⟨rfl, rfl, ?_⟩
  rw [runAddRoute_eq, pctDecodeSegment_no_escape r (unreserved_no_escape r.data h),
    runGetAllRoutes_eq]
  simp [tableUpsert]

/-- Claim C1 witness: the amended statement evaluated at the route a-b
(unreserved characters only) and target 10.0.0.1:9000. -/
theorem add_route_verbatim_unreserved_roundtrip_witness :
    ("a-b" : String).data.all isUnreserved = true ∧
    ((P0.add_route_req "a-b" "10.0.0.1:9000").url =
        P0.api_url ++ "/api/routes/" ++ pctEncodeSegment "a-b" ∧
      (P0.delete_route_req "a-b").url =
        P0.api_url ++ "/api/routes/" ++ pctEncodeSegment "a-b" ∧
      runGetAllRoutes P0 (runAddRoute P0 [] "a-b" "10.0.0.1:9000").1 =
        Except.ok (some [("a-b", "10.0.0.1:9000")])) :=
  ⟨by decide, add_route_verbatim_unreserved_roundtrip P0 "a-b" "10.0.0.1:9000" (by decide)⟩

/-- Claim C2 counterexample: the generated token does not carry 128 bits
of entropy, and two process runs can produce the same generated token.
The two distinct 128-bit random draws 0 and 0xc000 shifted left by 48
(they differ exactly in the variant bits that uuid4 overwrites) render
to the identical token, so the map from the 128 random bits to the token
is not injective: the token carries at most 122 bits. -/
theorem uuid4_not_injective_on_128_random_bits :
    uuid4_hex 0 = uuid4_hex (0xc000 <<< 48) ∧
    (0 : Nat) < 0xc000 <<< 48 ∧ 0xc000 <<< 48 < 2 ^ 128 := by
  refine ⟨by decide, by decide, by decide⟩

/-- Claim C2 (amended): token resolution always produces a token.  An
externally supplied nonempty token is returned unchanged (resolution is
a pure function of the environment, so repeated calls agree); with no
external token a version-4 UUID token is generated: a 32-character
lowercase-hex string determined by the 122 surviving random bits (the
six version and variant bits are forced), and two runs whose uuid
integers differ produce different tokens. -/
theorem auth_token_resolution (t : String) (fresh r1 r2 : Nat)
    (ht : t ≠ "") (hr : uuidInt r1 ≠ uuidInt r2) :
    auth_token_default (some t) fresh = t ∧
    auth_token_default none fresh = uuid4_hex fresh ∧
    (uuid4_hex fresh).length = 32 ∧
    (uuid4_hex fresh).data.all isLowerHexDigit = true ∧
    uuid4_hex r1 ≠ uuid4_hex r2 := by
  refine ⟨?_, rfl, uuid4_hex_length fresh, uuid4_hex_all_hex fresh, uuid4_hex_inj hr⟩
  simp [auth_token_default, ht]

/-- Claim C2 witness: the amended statement evaluated at the external
token secret-token and the random draws 0 and 1. -/
theorem auth_token_resolution_witness :
    ("secret-token" : String) ≠ "" ∧
    (auth_token_default (some "secret-token") 0 = "secret-token" ∧
      auth_token_default none 0 = uuid4_hex 0 ∧
      (uuid4_hex 0).length = 32 ∧
      (uuid4_hex 0).data.all isLowerHexDigit = true ∧
      uuid4_hex 0 ≠ uuid4_hex 1) :=
  ⟨by decide, auth_token_resolution "secret-token" 0 0 1 (by decide) (by decide)⟩

/-- Claim C3 counterexample: the client does not absorb a 404 into
success.  delete_route applied to a 404 response surfaces the tornado
HTTPError (status 404) to the caller instead of resolving as success. -/
theorem delete_route_404_surfaces_error :
    delete_route_result { code := 404, body := none } =
      Except.error { code := 404, body := none } := rfl

/-- Claim C3 (amended): deleteRoute(r) completes successfully whether or
not r previously existed, because the engine itself answers the delete
of an absent key with 2xx (spec contract); the client has no 404
special case, so it relies on that contract rather than absorbing a 404.
What the engine removes is the percent-decoding of the transmitted
segment. -/
theorem delete_route_idempotent_success (p : Proxy) (t : RouteTable) (r : String) :
    (runDeleteRoute p t r).2 = Except.ok () ∧
    (runDeleteRoute p t r).1 = tableDelete t (pctDecodeSegment r) := by
  rw [runDeleteRoute_eq]
  exact ⟨rfl, rfl⟩

/-- Claim C4: start builds the fixed flag set from the configuration,
sets CONFIG_TLS_PROXY_TOKEN to the auth token in the child environment
(whatever the inherited environment holds), uses stdin=PIPE,
stdout/stderr passthrough and a new session, and netloc extraction
behaves as urlparse does on the default URLs. -/
theorem start_popen_call_spec (p : Proxy) (osEnv : List (String × String)) :
    (p.start osEnv).args =
      [PROXY_EXE, "-address", netloc p.public_url,
       "-api-address", netloc p.api_url,
       "-log-level", p.log_level, "-is-child-process"] ∧
    envGet (p.start osEnv).env "CONFIG_TLS_PROXY_TOKEN" = some p.auth_token ∧
    (p.start osEnv).stdin = StdStream.pipe ∧
    (p.start osEnv).stdout = StdStream.inherit ∧
    (p.start osEnv).stderr = StdStream.inherit ∧
    (p.start osEnv).start_new_session = true ∧
    netloc "tls://0.0.0.0:8080" = "0.0.0.0:8080" ∧
    netloc "http://localhost:8000" = "localhost:8000" :=
  ⟨rfl, envGet_envSet osEnv "CONFIG_TLS_PROXY_TOKEN" p.auth_token,
   rfl, rfl, rfl, rfl, by decide, by decide⟩

/-- Claim C5: all three route operations carry the fixed header
Authorization: token followed by the proxy's auth token, the very value
start places in the engine's environment; the operations are functions
of an immutable configuration, so the token cannot rotate between them. -/
theorem auth_header_uses_shared_token (p : Proxy) (r tgt : String)
    (osEnv : List (String × String)) :
    (p.add_route_req r tgt).headers = [("Authorization", "token " ++ p.auth_token)] ∧
    (p.delete_route_req r).headers = [("Authorization", "token " ++ p.auth_token)] ∧
    p.get_all_routes_req.headers = [("Authorization", "token " ++ p.auth_token)] ∧
    envGet (p.start osEnv).env "CONFIG_TLS_PROXY_TOKEN" = some p.auth_token :=
  ⟨rfl, rfl, rfl, envGet_envSet osEnv "CONFIG_TLS_PROXY_TOKEN" p.auth_token⟩

/-- Claim C6 counterexample: the for-all-routes claim fails at the route
a%41.  The client transmits the route verbatim, the engine
percent-decodes the path segment, so both PUTs are stored under the key
aA and getAllRoutes returns the mapping keyed by aA, which is a
different string from the route a%41 that was passed in. -/
theorem add_route_escaped_route_key_decoded :
    runGetAllRoutes P0
        (runAddRoute P0 (runAddRoute P0 [] "a%41" "10.0.0.1:9000").1
          "a%41" "10.0.0.2:9000").1 =
      Except.ok (some [("aA", "10.0.0.2:9000")]) ∧
    pctDecodeSegment "a%41" = "aA" ∧
    ("aA" : String) ≠ "a%41" := by
  refine ⟨rfl, rfl, by decide⟩

/-- Claim C6 (amended): for every route without a percent character (so
its verbatim transmission percent-decodes to itself), addRoute(r, t1)
then addRoute(r, t2) then getAllRoutes() yields exactly the singleton
mapping of r to t2: the PUT on the existing key overwrote it, last
write wins.  For a route with percent escapes the engine keys the table
by the decoding of the transmitted segment instead of the literal
route. -/
theorem add_route_upsert_last_write_wins (p : Proxy) (r t1 t2 : String)
    (h : r.data.all (fun c => !(c == '%')) = true) :
    (runAddRoute p [] r t1).2 = Except.ok () ∧
    (runAddRoute p (runAddRoute p [] r t1).1 r t2).2 = Except.ok () ∧
    runGetAllRoutes p (runAddRoute p (runAddRoute p [] r t1).1 r t2).1 =
      Except.ok (some [(r, t2)]) := by
  rw [runAddRoute_eq, runAddRoute_eq, pctDecodeSegment_no_escape r h, runGetAllRoutes_eq]
  refine ⟨rfl, rfl, ?_⟩
  simp [tableUpsert]

/-- Claim C6 witness: the amended statement evaluated at the
percent-free route scheduler-1 and two successive targets. -/
theorem add_route_upsert_last_write_wins_witness :
    ("scheduler-1" : String).data.all (fun c => !(c == '%')) = true ∧
    ((runAddRoute P0 [] "scheduler-1" "10.1.2.3:8786").2 = Except.ok () ∧
      (runAddRoute P0 (runAddRoute P0 [] "scheduler-1" "10.1.2.3:8786").1
          "scheduler-1" "10.1.2.4:8786").2 = Except.ok () ∧
      runGetAllRoutes P0
          (runAddRoute P0 (runAddRoute P0 [] "scheduler-1" "10.1.2.3:8786").1
            "scheduler-1" "10.1.2.4:8786").1 =
        Except.ok (some [("scheduler-1", "10.1.2.4:8786")])) :=
  ⟨by decide,
   add_route_upsert_last_write_wins P0 "scheduler-1" "10.1.2.3:8786" "10.1.2.4:8786"
     (by decide)⟩

/-- Claim C7: add_route returns normally exactly when the engine
answered 2xx; every non-2xx response surfaces as an HTTPError carrying
that response's status and body. -/
theorem add_route_success_iff_2xx (resp : HTTPResponse) :
    (add_route_result resp = Except.ok () ↔ 200 ≤ resp.code ∧ resp.code < 300) ∧
    (¬ (200 ≤ resp.code ∧ resp.code < 300) →
      add_route_result resp = Except.error { code := resp.code, body := resp.body }) := by
  by_cases h : 200 ≤ resp.code ∧ resp.code < 300 <;>
    simp [add_route_result, fetchResult, h, Except.map]

/-- Claim C7 witness: the theorem applied to a concrete 404 response. -/
theorem add_route_success_iff_2xx_witness :
    add_route_result { code := 404, body := none } =
      Except.error { code := 404, body := none } :=
  (add_route_success_iff_2xx { code := 404, body := none }).2 (by decide)

/-- Claim C8: get_all_routes issues a single GET to the /api/routes/
endpoint with no body, and against the spec-modelled engine it returns
the entire route table decoded from the JSON response body in one
response. -/
theorem get_all_routes_single_get_whole_table (p : Proxy) (t : RouteTable) :
    p.get_all_routes_req.method = "GET" ∧
    p.get_all_routes_req.url = p.api_url ++ "/api/routes/" ∧
    p.get_all_routes_req.body = none ∧
    runGetAllRoutes p t = Except.ok (some t) :=
  ⟨rfl, rfl, rfl, runGetAllRoutes_eq p t⟩

/-- Claim C9: stop on a Proxy whose start never completed reads the
never-assigned proxy_process attribute and raises AttributeError; the
call is an error, not a silent no-op. -/
theorem stop_before_start_raises_attribute_error :
    Proxy.stop { proxy_process := none } = Except.error PyError.attributeError := rfl

/-- Claim C10: an externally supplied empty token is falsy, so token
resolution discards it and returns the freshly generated uuid4 token,
which has 32 characters and hence is never the empty string. -/
theorem empty_env_token_regenerated (r : Nat) :
    auth_token_default (some "") r = uuid4_hex r ∧
    (auth_token_default (some "") r).length = 32 :=
  ⟨rfl, uuid4_hex_length r⟩
